import Mathlib

/-!
Shallow embedding of `src/narrative-viz.js` (class `NarrativeVisualization`),
the rendering engine of a three-scene D3 narrative visualization over
World Bank country-year observation records.

Conventions of the embedding:
* JS numbers that carry data values are modelled as `ℚ` (all record values in
  the dataset are finite decimals; the arithmetic performed on them — sums,
  means, one division — is exact over `ℚ`).
* Nullable fields are `Option ℚ` / `Option String` (`none` = JSON `null`).
* Arrays are `List`s; `Array.prototype.filter` is `List.filter`, preserving
  input order, so order-preservation facts are facts about `List.filter`.
* The `d3.scaleSqrt` radius scale involves `Real.sqrt`, hence that one scale
  is modelled over `ℝ`.
-/

/-- One country-year record, as produced by `data/processed_data.json` or the
`getEmbeddedData` fallback.  Every numeric indicator is independently
nullable (`null` in JSON ↦ `none`). -/
structure Observation where
  country_name : String
  country_code : Option String
  year : Int
  region : Option String
  income_group : Option String
  income_per_capita : Option ℚ
  hiv_incidence_rate : Option ℚ
  adult_literacy_rate : Option ℚ
  secondary_school_enrollment : Option ℚ
  condom_use_average : Option ℚ
  total_population : Option ℚ
  life_expectancy : Option ℚ
  deriving DecidableEq, Repr

/-- The filter-criteria object passed to `filterData`.  A field is `none`
when the corresponding key is absent from the JS object; `some s` models the
string value supplied by the DOM controls (year slider values and the
region/income dropdowns are strings). -/
structure Filters where
  year : Option String
  region : Option String
  income : Option String
  deriving DecidableEq, Repr

/-- Longest leading run of decimal digits, as consumed by JS `parseInt`
after sign handling; `none` when there is no digit (JS `NaN`). -/
def parseDigits (cs : List Char) : Option Nat :=
  let ds := cs.takeWhile Char.isDigit
  if ds.isEmpty then none
  else some (ds.foldl (fun a c => a * 10 + (c.toNat - 48)) 0)

/-- JS `parseInt(s)` restricted to radix-10 inputs (the only inputs this
program ever feeds it: year strings from sliders, or sentinel words like
`"all"`): skip leading whitespace, optional sign, then a digit run;
`none` models the `NaN` result when no digit is found. -/
def parseIntJS (s : String) : Option Int :=
  match s.data.dropWhile (fun c => c = ' ' || c = '\t' || c = '\n' || c = '\r') with
  | '-' :: r => (parseDigits r).map (fun n => -(n : Int))
  | '+' :: r => (parseDigits r).map (fun n => (n : Int))
  | r => (parseDigits r).map (fun n => (n : Int))

/-- The record predicate applied by the `filters.year` stage of `filterData`:
`d.year === parseInt(filters.year)`; a `===` comparison with `NaN` is false
for every record. -/
def yearStagePred (s : String) (d : Observation) : Bool :=
  match parseIntJS s with
  | some n => d.year == n
  | none => false

/-- `if (filters.year) { filtered = filtered.filter(d => d.year ===
parseInt(filters.year)); }` — the year stage of `filterData`
(`narrative-viz.js` lines 205-207).  A missing key or empty string is falsy
and skips the stage. -/
def yearStage (y : Option String) (l : List Observation) : List Observation :=
  match y with
  | some s => if !s.isEmpty then l.filter (yearStagePred s) else l
  | none => l

/-- `if (filters.region && filters.region !== 'all') { filtered =
filtered.filter(d => d.region === filters.region); }` — the region stage
(lines 209-211). -/
def regionStage (r : Option String) (l : List Observation) : List Observation :=
  match r with
  | some s =>
      if !s.isEmpty && s != "all" then l.filter (fun (d : Observation) => d.region == some s)
      else l
  | none => l

/-- `if (filters.income && filters.income !== 'all') { filtered =
filtered.filter(d => d.income_group === filters.income); }` — the income
stage (lines 213-215). -/
def incomeStage (i : Option String) (l : List Observation) : List Observation :=
  match i with
  | some s =>
      if !s.isEmpty && s != "all" then l.filter (fun (d : Observation) => d.income_group == some s)
      else l
  | none => l

/-- The final, unconditional stage of `filterData` (lines 218-221):
`hasBasicData = d.income_per_capita !== null || d.life_expectancy !== null`. -/
def viablePred (d : Observation) : Bool :=
  d.income_per_capita.isSome || d.life_expectancy.isSome

/-- `filterData(filters)` from `narrative-viz.js` lines 201-224, as a function
of the dataset it reads (`this.data`): a copy of the data flows through the
conditional year, region and income stages in that order (each a reassignment
of the local `filtered`), then through the minimum-viability filter. -/
def filterData (data : List Observation) (f : Filters) : List Observation :=
  (incomeStage f.income (regionStage f.region (yearStage f.year data))).filter viablePred

/-- Claim-side per-record year criterion, following the spec wording
"year equal to the given year when set": when the year criterion is set
(truthy), the record's year must equal the integer value of the criterion. -/
def yearOk (y : Option String) (d : Observation) : Bool :=
  match y with
  | none => true
  | some s => if s.isEmpty then true else yearStagePred s d

/-- Claim-side region criterion: "region equal to the given region when set
and not the sentinel". -/
def regionOk (r : Option String) (d : Observation) : Bool :=
  match r with
  | none => true
  | some s => if s.isEmpty || s == "all" then true else d.region == some s

/-- Claim-side income criterion: "income group equal to the given income when
set and not the sentinel". -/
def incomeOk (i : Option String) (d : Observation) : Bool :=
  match i with
  | none => true
  | some s => if s.isEmpty || s == "all" then true else d.income_group == some s

/-- The conjunction of all per-record criteria of the filtering claim:
all specified categorical criteria hold and the record is minimally viable. -/
def claimPred (f : Filters) (d : Observation) : Bool :=
  yearOk f.year d && regionOk f.region d && incomeOk f.income d && viablePred d

lemma yearOk_none : yearOk none = fun _ => true := rfl

lemma yearOk_some (s : String) :
    yearOk (some s) = fun d => if s.isEmpty then true else yearStagePred s d := rfl

lemma regionOk_none : regionOk none = fun _ => true := rfl

lemma regionOk_some (s : String) :
    regionOk (some s)
      = fun d => if s.isEmpty || s == "all" then true else d.region == some s := rfl

lemma incomeOk_none : incomeOk none = fun _ => true := rfl

lemma incomeOk_some (s : String) :
    incomeOk (some s)
      = fun d => if s.isEmpty || s == "all" then true else d.income_group == some s := rfl

lemma yearStage_eq_filter (y : Option String) (l : List Observation) :
    yearStage y l = l.filter (yearOk y) := by
  cases y with
  | none => simp [yearStage, yearOk_none]
  | some s =>
      by_cases hs : s.isEmpty <;>
        simp [yearStage, yearOk_some, hs]

lemma regionStage_eq_filter (r : Option String) (l : List Observation) :
    regionStage r l = l.filter (regionOk r) := by
  cases r with
  | none => simp [regionStage, regionOk_none]
  | some s =>
      by_cases hs : s.isEmpty <;> by_cases ha : s = "all" <;>
        simp [regionStage, regionOk_some, hs, ha, beq_iff_eq]

lemma incomeStage_eq_filter (i : Option String) (l : List Observation) :
    incomeStage i l = l.filter (incomeOk i) := by
  cases i with
  | none => simp [incomeStage, incomeOk_none]
  | some s =>
      by_cases hs : s.isEmpty <;> by_cases ha : s = "all" <;>
        simp [incomeStage, incomeOk_some, hs, ha, beq_iff_eq]

/-- `filterData` is a single `filter` by the conjunction of the claim's
per-record criteria. -/
lemma filterData_eq_filter (data : List Observation) (f : Filters) :
    filterData data f = data.filter (claimPred f) := by
  unfold filterData
  rw [yearStage_eq_filter, regionStage_eq_filter, incomeStage_eq_filter]
  simp only [List.filter_filter]
  congr 1
  funext d
  unfold claimPred
  cases yearOk f.year d <;> cases regionOk f.region d <;>
    cases incomeOk f.income d <;> cases viablePred d <;> rfl

/-- The South Africa 2021 record of `getEmbeddedData` (line 246). -/
def obsZAF : Observation :=
  ⟨"South Africa", some "ZAF", 2021, some "Sub-Saharan Africa",
   some "Upper middle income", some 6374, some (77/10), some 87, none,
   some 45, some 59392255, some (6413/100)⟩

/-- The Rwanda 2021 record of `getEmbeddedData` (line 253). -/
def obsRWA : Observation :=
  ⟨"Rwanda", some "RWA", 2021, some "Sub-Saharan Africa",
   some "Low income", some 822, some (26/100), some 73, none,
   some 54, some 13276513, some 69⟩

/-- The United States 2015 record of `getEmbeddedData` (line 256). -/
def obsUSA2015 : Observation :=
  ⟨"United States", some "USA", 2015, some "North America",
   some "High income", some 56863, some (42/100), some 99, none,
   some 58, some 321418820, some (7869/100)⟩

example : filterData [obsZAF, obsRWA, obsUSA2015] ⟨some "2021", none, none⟩
    = [obsZAF, obsRWA] := by rfl

example : filterData [obsZAF, obsRWA, obsUSA2015]
    ⟨some "2021", some "Sub-Saharan Africa", none⟩ = [obsZAF, obsRWA] := by rfl

example : filterData [obsZAF, obsRWA, obsUSA2015]
    ⟨some "2021", none, some "High income"⟩ = [] := by rfl

example : filterData [obsZAF] ⟨some "all", none, none⟩ = [] := by rfl

example : parseIntJS "all" = none := by decide

example : parseIntJS "2021" = some 2021 := by decide

/-- C1: for every dataset and filter criteria, `filterData` returns exactly
the records satisfying every specified criterion (year when set, region when
set and not the sentinel, income group when set and not the sentinel) that
carry at least one anchor indicator, in input order, fabricating no record
(the output is a sublist of the input). -/
theorem filterData_exact (data : List Observation) (f : Filters) :
    filterData data f = data.filter (claimPred f) ∧
      List.Sublist (filterData data f) data := by
  refine ⟨filterData_eq_filter data f, ?_⟩
  rw [filterData_eq_filter data f]
  exact List.filter_sublist data

lemma parseIntJS_all : parseIntJS "all" = none := by decide

lemma yearStagePred_all : yearStagePred "all" = fun _ => false := by
  funext d
  simp [yearStagePred, parseIntJS_all]

/-- C2 counterexample: the claim fails on the year dimension.  On a one-record
dataset, the criteria `{year: "all"}` return the empty list, while the
criteria with the year dimension absent return the record — so year `"all"`
does not pass all years through unchanged. -/
theorem filterData_year_all_empty_cex :
    filterData [obsZAF] ⟨some "all", none, none⟩ = [] ∧
      filterData [obsZAF] ⟨none, none, none⟩ = [obsZAF] := by
  exact ⟨by rfl, by rfl⟩

/-- C2 (amended): a region or income criterion set to `"all"` excludes no
record on that dimension (the output equals that with the dimension absent),
and an unset dimension excludes no record; but a year criterion set to
`"all"` is parsed with `parseInt`, yielding `NaN`, which no record's year
equals — the output is empty rather than all years passing through. -/
theorem filterData_sentinel (data : List Observation) (y r i : Option String) :
    filterData data ⟨y, some "all", i⟩ = filterData data ⟨y, none, i⟩ ∧
      filterData data ⟨y, r, some "all"⟩ = filterData data ⟨y, r, none⟩ ∧
      filterData data ⟨some "all", r, i⟩ = [] := by
  refine ⟨?_, ?_, ?_⟩
  · simp [filterData, regionStage]
  · simp [filterData, incomeStage]
  · have h : yearStage (some "all") data = [] := by
      have he : "all".isEmpty = false := by decide
      simp [yearStage, he, yearStagePred_all]
    simp [filterData, h, regionStage_eq_filter, incomeStage_eq_filter]

/-- C7: filtering is idempotent — applying `filterData` with the same
criteria to its own output returns that output unchanged. -/
theorem filterData_idempotent (data : List Observation) (f : Filters) :
    filterData (filterData data f) f = filterData data f := by
  simp only [filterData_eq_filter, List.filter_filter]
  congr 1
  funext d
  cases claimPred f d <;> rfl

/-- The instance state set up in the `NarrativeVisualization` constructor
(lines 9-14): the scene pointer, the dataset, and the derived filter-option
lists.  The constructor's `null` for the not-yet-loaded dataset is modelled
as the empty list. -/
structure VizState where
  currentScene : Int
  data : List Observation
  filteredData : List Observation
  regions : List String
  incomeGroups : List String
  years : List Int
  deriving DecidableEq, Repr

/-- `goToScene(sceneNumber)` (lines 157-172): its only effect on the instance
state is `this.currentScene = sceneNumber`, with no validation of the
argument (the remaining statements are DOM mutations and a re-render). -/
def goToScene (sceneNumber : Int) (s : VizState) : VizState :=
  { s with currentScene := sceneNumber }

/-- `previousScene()` (lines 145-149): steps back only when
`this.currentScene > 1`. -/
def previousScene (s : VizState) : VizState :=
  if s.currentScene > 1 then goToScene (s.currentScene - 1) s else s

/-- `nextScene()` (lines 151-155): steps forward only when
`this.currentScene < 3`. -/
def nextScene (s : VizState) : VizState :=
  if s.currentScene < 3 then goToScene (s.currentScene + 1) s else s

/-- The state right after the constructor runs (scene pointer 1, nothing
loaded). -/
def initState : VizState :=
  ⟨1, [], [], [], [], []⟩

/-- C3 counterexample: `goToScene` neither rejects nor clamps an out-of-range
index — jumping to scene 0 from scene 1 leaves the scene pointer at 0,
outside `{1, 2, 3}`. -/
theorem goToScene_out_of_range_cex :
    (goToScene 0 initState).currentScene = 0 ∧
      ¬((goToScene 0 initState).currentScene = 1 ∨
        (goToScene 0 initState).currentScene = 2 ∨
        (goToScene 0 initState).currentScene = 3) := by
  exact ⟨rfl, by decide⟩

/-- C3 (amended): from scene 1, `previousScene` is a no-op, and from scene 3,
`nextScene` is a no-op; `previousScene` and `nextScene` keep the scene
pointer inside `{1, 2, 3}` whenever it starts there; but `goToScene` stores
its argument without validation, so a direct jump stays in `{1, 2, 3}` only
when the jumped-to index is itself in that range (as the scene indicators
supply). -/
theorem sceneNavigation_bounds (s : VizState)
    (hs : s.currentScene = 1 ∨ s.currentScene = 2 ∨ s.currentScene = 3) :
    (s.currentScene = 1 → previousScene s = s) ∧
      (s.currentScene = 3 → nextScene s = s) ∧
      ((previousScene s).currentScene = 1 ∨ (previousScene s).currentScene = 2 ∨
        (previousScene s).currentScene = 3) ∧
      ((nextScene s).currentScene = 1 ∨ (nextScene s).currentScene = 2 ∨
        (nextScene s).currentScene = 3) ∧
      (∀ n : Int, 1 ≤ n → n ≤ 3 →
        ((goToScene n s).currentScene = 1 ∨ (goToScene n s).currentScene = 2 ∨
          (goToScene n s).currentScene = 3)) := by
  refine ⟨?_, ?_, ?_, ?_, ?_⟩
  · intro h1
    simp [previousScene, h1]
  · intro h3
    simp [nextScene, h3]
  · rcases hs with h | h | h <;> simp [previousScene, goToScene, h]
  · rcases hs with h | h | h <;> simp [nextScene, goToScene, h]
  · intro n h1 h3
    simp only [goToScene]
    omega

/-- C3 witness: the amended navigation facts at the initial state. -/
theorem sceneNavigation_bounds_witness :
    previousScene initState = initState ∧
      ((goToScene 2 initState).currentScene = 1 ∨
        (goToScene 2 initState).currentScene = 2 ∨
        (goToScene 2 initState).currentScene = 3) := by
  have h := sceneNavigation_bounds initState (by decide)
  exact ⟨h.1 (by decide), h.2.2.2.2 2 (by decide) (by decide)⟩

/-- `filterData` as the instance method it is in the source: it reads
`this.data` and assigns no instance field, returning the filtered list. -/
def filterDataMethod (s : VizState) (f : Filters) : VizState × List Observation :=
  (s, filterData s.data f)

/-- C9: `filterData` has no observable side effect on the instance state —
the state after the call is the state before it (so `this.data`, its records
and their order are untouched) — and it is deterministic: states holding
identical datasets yield identical outputs for the same criteria. -/
theorem filterData_pure (s t : VizState) (f : Filters) :
    (filterDataMethod s f).1 = s ∧
      (s.data = t.data → (filterDataMethod s f).2 = (filterDataMethod t f).2) := by
  refine ⟨rfl, fun h => ?_⟩
  simp [filterDataMethod, h]

/-- C9 witness: at two concrete states sharing a dataset. -/
theorem filterData_pure_witness :
    (filterDataMethod initState ⟨some "2021", none, none⟩).1 = initState ∧
      (filterDataMethod initState ⟨some "2021", none, none⟩).2 =
        (filterDataMethod (goToScene 2 initState) ⟨some "2021", none, none⟩).2 := by
  have h := filterData_pure initState (goToScene 2 initState) ⟨some "2021", none, none⟩
  exact ⟨h.1, h.2 (by rfl)⟩

/-- The fixed income ordinal scale set up once in the constructor (lines
28-30): `d3.scaleOrdinal().domain([four tiers]).range([four hexes])`.  All
three scene renderers color their marks with `this.colors.income(d.income_group)`,
so this single mapping is the mark color in every scene and every render.
(A value outside the explicit domain would be appended to the ordinal
scale's implicit domain and receive the first range entry; the claims only
concern the four tiers.) -/
def incomeColor (g : String) : String :=
  if g = "Low income" then "#dc2626"
  else if g = "Lower middle income" then "#d97706"
  else if g = "Upper middle income" then "#059669"
  else if g = "High income" then "#2563eb"
  else "#dc2626"

/-- The legend entries hard-coded inside `addIncomeLegend` (lines 956-961),
drawn in every scene as tier name next to a swatch of the paired hex. -/
def legendIncomeGroups : List (String × String) :=
  [("High income", "#0ea5e9"),
   ("Upper middle income", "#059669"),
   ("Lower middle income", "#f59e0b"),
   ("Low income", "#dc2626")]

/-- The swatch color the legend shows for a tier. -/
def legendColor (g : String) : Option String :=
  (legendIncomeGroups.find? (fun p => p.1 == g)).map (fun p => p.2)

/-- C5 (code bug): the legend does not show the color the marks use.  For the
tiers "High income" and "Lower middle income" the `addIncomeLegend` swatch
hex differs from the constructor scale hex that every scene's marks are
filled with, so the same tier is displayed in two different colors on the
same chart.  (For "Low income" and "Upper middle income" the two agree.) -/
theorem incomeLegend_mismatch :
    incomeColor "High income" = "#2563eb" ∧
      legendColor "High income" = some "#0ea5e9" ∧
      legendColor "High income" ≠ some (incomeColor "High income") ∧
      legendColor "Lower middle income" ≠ some (incomeColor "Lower middle income") ∧
      legendColor "Low income" = some (incomeColor "Low income") ∧
      legendColor "Upper middle income" = some (incomeColor "Upper middle income") := by
  refine ⟨rfl, rfl, ?_, ?_, rfl, rfl⟩ <;> decide

/-- `addTrendLine`'s validity filter (line 892): both plotted fields
non-null. -/
def trendValid (data : List Observation) (xF yF : Observation → Option ℚ) :
    List Observation :=
  data.filter (fun d => (xF d).isSome && (yF d).isSome)

/-- The value of a field on a record that passed the non-null filter
(JS reads `d[xField]` directly; on `trendValid` records the default is never
taken). -/
def optVal (fld : Observation → Option ℚ) (d : Observation) : ℚ :=
  (fld d).getD 0

/-- `d3.mean` of a list of (non-null) numbers. -/
def meanQ (l : List ℚ) : ℚ :=
  l.sum / l.length

/-- `xMean` of `addTrendLine` (line 895). -/
def trendXMean (data : List Observation) (xF yF : Observation → Option ℚ) : ℚ :=
  meanQ ((trendValid data xF yF).map (optVal xF))

/-- `yMean` of `addTrendLine` (line 896). -/
def trendYMean (data : List Observation) (xF yF : Observation → Option ℚ) : ℚ :=
  meanQ ((trendValid data xF yF).map (optVal yF))

/-- The accumulated `numerator` of `addTrendLine` (lines 898-906):
`Σ (x − xMean)(y − yMean)` over the valid records. -/
def trendNumerator (data : List Observation) (xF yF : Observation → Option ℚ) : ℚ :=
  ((trendValid data xF yF).map
    (fun d => (optVal xF d - trendXMean data xF yF) *
      (optVal yF d - trendYMean data xF yF))).sum

/-- The accumulated `denominator` (lines 898-906): `Σ (x − xMean)²` over the
valid records. -/
def trendDenominator (data : List Observation) (xF yF : Observation → Option ℚ) : ℚ :=
  ((trendValid data xF yF).map
    (fun d => (optVal xF d - trendXMean data xF yF) *
      (optVal xF d - trendXMean data xF yF))).sum

/-- What `addTrendLine` (lines 890-937) computes before drawing.  `skipped`
is the early `return` when fewer than 3 valid points exist (line 893).  In
JS the slope `numerator / denominator` is a float division: when the
denominator is 0 (all x equal their mean) the numerator is also 0 and the
slope is `NaN` (`0/0`), a non-finite number — modelled as `nonFinite`.
Otherwise the exact rational slope and intercept are produced. -/
inductive TrendResult where
  | skipped
  | nonFinite
  | line (slope intercept : ℚ)
  deriving DecidableEq, Repr

/-- The regression `addTrendLine` performs over the chosen x/y fields. -/
def addTrendLine (data : List Observation) (xF yF : Observation → Option ℚ) :
    TrendResult :=
  if (trendValid data xF yF).length < 3 then .skipped
  else if trendDenominator data xF yF = 0 then .nonFinite
  else
    .line (trendNumerator data xF yF / trendDenominator data xF yF)
      (trendYMean data xF yF -
        (trendNumerator data xF yF / trendDenominator data xF yF) *
          trendXMean data xF yF)

lemma list_sum_nonneg_eq_zero {l : List ℚ} (h0 : ∀ q ∈ l, 0 ≤ q)
    (hs : l.sum = 0) : ∀ q ∈ l, q = 0 := by
  induction l with
  | nil => intro q hq; cases hq
  | cons a t ih =>
      have ha : 0 ≤ a := h0 a (List.mem_cons_self a t)
      have ht0 : ∀ q ∈ t, 0 ≤ q := fun q hq => h0 q (List.mem_cons_of_mem a hq)
      have hts : 0 ≤ t.sum := List.sum_nonneg ht0
      have hsum : a + t.sum = 0 := by simpa using hs
      have ha0 : a = 0 := by linarith
      have hts0 : t.sum = 0 := by linarith
      intro q hq
      rcases List.mem_cons.mp hq with h | h
      · rw [h, ha0]
      · exact ih ht0 hts0 q h

lemma trendDenominator_ne_zero (data : List Observation)
    (xF yF : Observation → Option ℚ)
    (h : ∃ d1 ∈ trendValid data xF yF, ∃ d2 ∈ trendValid data xF yF,
      optVal xF d1 ≠ optVal xF d2) :
    trendDenominator data xF yF ≠ 0 := by
  rcases h with ⟨d1, hd1, d2, hd2, hne⟩
  intro h0
  have h0' : ((trendValid data xF yF).map
      (fun d => (optVal xF d - trendXMean data xF yF) *
        (optVal xF d - trendXMean data xF yF))).sum = 0 := h0
  have hnn : ∀ q ∈ (trendValid data xF yF).map
      (fun d => (optVal xF d - trendXMean data xF yF) *
        (optVal xF d - trendXMean data xF yF)), 0 ≤ q := by
    intro q hq
    rcases List.mem_map.mp hq with ⟨d, _, rfl⟩
    exact mul_self_nonneg _
  have hall := list_sum_nonneg_eq_zero hnn h0'
  have e1 : optVal xF d1 = trendXMean data xF yF := by
    have hz := hall _ (List.mem_map_of_mem _ hd1)
    exact sub_eq_zero.mp (mul_self_eq_zero.mp hz)
  have e2 : optVal xF d2 = trendXMean data xF yF := by
    have hz := hall _ (List.mem_map_of_mem _ hd2)
    exact sub_eq_zero.mp (mul_self_eq_zero.mp hz)
  exact hne (e1.trans e2.symm)

lemma sum_map_affine (l : List Observation) (x y : Observation → ℚ) (a b : ℚ)
    (h : ∀ d ∈ l, y d = a * x d + b) :
    (l.map y).sum = a * (l.map x).sum + l.length * b := by
  induction l with
  | nil => simp
  | cons d t ih =>
      have hd : y d = a * x d + b := h d (List.mem_cons_self d t)
      have ht : ∀ e ∈ t, y e = a * x e + b :=
        fun e he => h e (List.mem_cons_of_mem d he)
      simp only [List.map_cons, List.sum_cons, List.length_cons]
      rw [hd, ih ht]
      push_cast
      ring

lemma trendYMean_affine (data : List Observation) (xF yF : Observation → Option ℚ)
    (a b : ℚ)
    (h : ∀ d ∈ trendValid data xF yF, optVal yF d = a * optVal xF d + b)
    (hne : (trendValid data xF yF).length ≠ 0) :
    trendYMean data xF yF = a * trendXMean data xF yF + b := by
  unfold trendYMean trendXMean meanQ
  rw [sum_map_affine _ _ _ a b h, List.length_map, List.length_map]
  have hn : ((trendValid data xF yF).length : ℚ) ≠ 0 := by exact_mod_cast hne
  field_simp
  ring

lemma trendNumerator_affine (data : List Observation) (xF yF : Observation → Option ℚ)
    (a b : ℚ)
    (h : ∀ d ∈ trendValid data xF yF, optVal yF d = a * optVal xF d + b)
    (hne : (trendValid data xF yF).length ≠ 0) :
    trendNumerator data xF yF = a * trendDenominator data xF yF := by
  have hy := trendYMean_affine data xF yF a b h hne
  unfold trendNumerator trendDenominator
  have hcong : ∀ d ∈ trendValid data xF yF,
      (optVal xF d - trendXMean data xF yF) *
        (optVal yF d - trendYMean data xF yF) =
      a * ((optVal xF d - trendXMean data xF yF) *
        (optVal xF d - trendXMean data xF yF)) := by
    intro d hd
    rw [h d hd, hy]
    ring
  rw [List.map_congr_left hcong, List.sum_map_mul_left]

/-- C6: `addTrendLine` computes the ordinary least-squares fit.  On any
dataset with at least 3 points carrying both plotted fields whose points all
lie on `y = 2x + 1` (with at least two distinct x-values), the slope is
exactly 2 and the intercept exactly 1 (the arithmetic is exact over `ℚ`, so
"within floating-point tolerance" holds exactly); and whenever fewer than 3
valid points exist, the regression and trend line are skipped entirely. -/
theorem addTrendLine_ols (data : List Observation)
    (xF yF : Observation → Option ℚ) :
    ((trendValid data xF yF).length < 3 → addTrendLine data xF yF = .skipped) ∧
      (3 ≤ (trendValid data xF yF).length →
        (∀ d ∈ trendValid data xF yF, optVal yF d = 2 * optVal xF d + 1) →
        (∃ d1 ∈ trendValid data xF yF, ∃ d2 ∈ trendValid data xF yF,
          optVal xF d1 ≠ optVal xF d2) →
        addTrendLine data xF yF = .line 2 1) := by
  constructor
  · intro h
    simp [addTrendLine, h]
  · intro h3 hline hx
    have hD := trendDenominator_ne_zero data xF yF hx
    have hlen : (trendValid data xF yF).length ≠ 0 := by omega
    have hnum := trendNumerator_affine data xF yF 2 1 hline hlen
    have hy := trendYMean_affine data xF yF 2 1 hline hlen
    have hnot : ¬(trendValid data xF yF).length < 3 := by omega
    have hslope : trendNumerator data xF yF / trendDenominator data xF yF = 2 := by
      rw [hnum]
      field_simp
    have hint : trendYMean data xF yF -
        trendNumerator data xF yF / trendDenominator data xF yF *
          trendXMean data xF yF = 1 := by
      rw [hslope, hy]
      ring
    simp only [addTrendLine, if_neg hnot, if_neg hD, hslope, hint]
    rw [hy]
    congr 1
    ring

/-- A synthetic record carrying only the two fields Scene 3's trend line
plots: literacy (x) and condom use (y). -/
def trendObs (x y : ℚ) : Observation :=
  ⟨"T", none, 2021, none, none, none, none, some x, none, some y, none, none⟩

/-- Five points on `y = 2x + 1` with distinct x-values. -/
def trendWitnessData : List Observation :=
  [trendObs 10 21, trendObs 20 41, trendObs 30 61, trendObs 40 81, trendObs 50 101]

/-- C6 witness: the OLS theorem at five concrete points on `y = 2x + 1`
(slope 2, intercept 1), and the skip branch on the empty dataset. -/
theorem addTrendLine_ols_witness :
    addTrendLine trendWitnessData Observation.adult_literacy_rate
        Observation.condom_use_average = .line 2 1 ∧
      addTrendLine [] Observation.adult_literacy_rate
        Observation.condom_use_average = .skipped := by
  have htv : trendValid trendWitnessData Observation.adult_literacy_rate
      Observation.condom_use_average = trendWitnessData := rfl
  have h := addTrendLine_ols trendWitnessData Observation.adult_literacy_rate
    Observation.condom_use_average
  have h0 := addTrendLine_ols [] Observation.adult_literacy_rate
    Observation.condom_use_average
  refine ⟨h.2 ?_ ?_ ?_, h0.1 (by simp [trendValid])⟩
  · rw [htv]
    simp [trendWitnessData]
  · intro d hd
    rw [htv] at hd
    simp only [trendWitnessData, List.mem_cons, List.not_mem_nil, or_false] at hd
    rcases hd with rfl | rfl | rfl | rfl | rfl <;> norm_num [optVal, trendObs]
  · refine ⟨trendObs 10 21, ?_, trendObs 20 41, ?_, ?_⟩
    · rw [htv]; simp [trendWitnessData]
    · rw [htv]; simp [trendWitnessData]
    · norm_num [optVal, trendObs]

/-- Three valid records all sharing the same x-value (literacy 50). -/
def flatWitnessData : List Observation :=
  [trendObs 50 1, trendObs 50 2, trendObs 50 3]

/-- C10: the slope division of `addTrendLine` is unguarded against a zero
denominator.  On three records (passing the fewer-than-3-points guard) whose
x-values are all equal, the sum of squared x-deviations is 0 and the JS
division computes `0/0 = NaN` — the computed slope is not a finite number. -/
theorem addTrendLine_zero_denominator :
    3 ≤ (trendValid flatWitnessData Observation.adult_literacy_rate
        Observation.condom_use_average).length ∧
      trendDenominator flatWitnessData Observation.adult_literacy_rate
        Observation.condom_use_average = 0 ∧
      addTrendLine flatWitnessData Observation.adult_literacy_rate
        Observation.condom_use_average = .nonFinite := by
  have htv : trendValid flatWitnessData Observation.adult_literacy_rate
      Observation.condom_use_average = flatWitnessData := rfl
  have hD : trendDenominator flatWitnessData Observation.adult_literacy_rate
      Observation.condom_use_average = 0 := by
    unfold trendDenominator trendXMean meanQ
    rw [htv]
    norm_num [flatWitnessData, trendObs, optVal]
  refine ⟨by rw [htv]; simp [flatWitnessData], hD, ?_⟩
  have hnot : ¬(trendValid flatWitnessData Observation.adult_literacy_rate
      Observation.condom_use_average).length < 3 := by
    rw [htv]
    simp [flatWitnessData]
  simp [addTrendLine, if_neg hnot, hD]

/-- Scene 1's validity predicate (lines 291-295): income non-null, HIV rate
non-null and non-negative. -/
def scene1ValidPred (d : Observation) : Bool :=
  d.income_per_capita.isSome &&
    (match d.hiv_incidence_rate with
     | some r => decide (0 ≤ r)
     | none => false)

/-- The `validData` of `renderScene1` (lines 277-295): `filterData({year,
region})` — the income key absent — then the per-scene validity filter. -/
def scene1Valid (data : List Observation) (yearStr regionStr : String) :
    List Observation :=
  (filterData data ⟨some yearStr, some regionStr, none⟩).filter scene1ValidPred

/-- The `data` of `renderScene2` (lines 477-482): records of the selected
year with the chosen education metric, HIV rate and income all non-null. -/
def scene2Data (data : List Observation) (yearStr : String)
    (metric : Observation → Option ℚ) : List Observation :=
  data.filter (fun d => yearStagePred yearStr d && (metric d).isSome &&
    d.hiv_incidence_rate.isSome && d.income_per_capita.isSome)

/-- `d3.extent` over a non-empty list of (non-null) values: its min and max. -/
def extent1 (x : ℚ) (xs : List ℚ) : ℚ × ℚ :=
  (xs.foldl min x, xs.foldl max x)

/-- `d3.max` over a non-empty list of values. -/
def max1 (x : ℚ) (xs : List ℚ) : ℚ :=
  xs.foldl max x

/-- `d.total_population || 1000000` (lines 320, 389 etc.): JS `||` replaces
the falsy values `null` and `0` with the default. -/
def popOrDefault (d : Observation) : ℚ :=
  match d.total_population with
  | some p => if p = 0 then 1000000 else p
  | none => 1000000

/-- Which of the two paths a scene render takes, with the scale domains the
chart path constructs.  Over this embedding every domain bound is a rational
number, hence finite: in the source, non-finite bounds (`NaN`/`Infinity`
propagating into pixel coordinates) can arise only from `d3.extent`/`d3.max`
of an empty sequence (`undefined` fed into a scale domain), and the
placeholder guard is exactly what keeps scale construction away from the
empty case. -/
inductive RenderPath where
  | placeholder
  | chart (xDomain yDomain rDomain : ℚ × ℚ)
  deriving DecidableEq, Repr

/-- The scale-construction decision of `renderScene1` (lines 297-321): on an
empty `validData`, append the "No data available for the selected filters"
text and return before any scale is built; otherwise build the log-x domain
(floored at 100), `[0, max·1.1]` y-domain, and population-extent r-domain. -/
def scene1Domains (v : Observation) (vs : List Observation) :
    (ℚ × ℚ) × (ℚ × ℚ) × (ℚ × ℚ) :=
  let xe := extent1 (optVal Observation.income_per_capita v)
    (vs.map (optVal Observation.income_per_capita))
  let ymax := max1 (optVal Observation.hiv_incidence_rate v)
    (vs.map (optVal Observation.hiv_incidence_rate))
  let re := extent1 (popOrDefault v) (vs.map popOrDefault)
  ((max xe.1 100, xe.2), (0, ymax * (11/10)), re)

def renderScene1Path (data : List Observation) (yearStr regionStr : String) :
    RenderPath :=
  match scene1Valid data yearStr regionStr with
  | [] => .placeholder
  | v :: vs =>
      .chart (scene1Domains v vs).1 (scene1Domains v vs).2.1
        (scene1Domains v vs).2.2

/-- The scale-construction decision of `renderScene2` (lines 487-514): on an
empty filtered set, append the "Limited education data available" text and
return; otherwise build the linear metric-extent x-domain, `[0, max·1.1]`
y-domain and population-extent r-domain. -/
def scene2Domains (metric : Observation → Option ℚ) (v : Observation)
    (vs : List Observation) : (ℚ × ℚ) × (ℚ × ℚ) × (ℚ × ℚ) :=
  (extent1 (optVal metric v) (vs.map (optVal metric)),
   (0, (max1 (optVal Observation.hiv_incidence_rate v)
     (vs.map (optVal Observation.hiv_incidence_rate))) * (11/10)),
   extent1 (popOrDefault v) (vs.map popOrDefault))

def renderScene2Path (data : List Observation) (yearStr : String)
    (metric : Observation → Option ℚ) : RenderPath :=
  match scene2Data data yearStr metric with
  | [] => .placeholder
  | v :: vs =>
      .chart (scene2Domains metric v vs).1 (scene2Domains metric v vs).2.1
        (scene2Domains metric v vs).2.2

/-- C8: when the filtered/valid data of a scene is empty, the render takes
the placeholder path and constructs no scale; on every non-empty valid set
it takes the chart path, whose three scale domains exist as (finite)
rational bounds. -/
theorem renderScene_empty_guard (data : List Observation)
    (yearStr regionStr : String) (metric : Observation → Option ℚ) :
    (scene1Valid data yearStr regionStr = [] →
      renderScene1Path data yearStr regionStr = .placeholder) ∧
      (scene1Valid data yearStr regionStr ≠ [] →
        ∃ xd yd rd, renderScene1Path data yearStr regionStr = .chart xd yd rd) ∧
      (scene2Data data yearStr metric = [] →
        renderScene2Path data yearStr metric = .placeholder) ∧
      (scene2Data data yearStr metric ≠ [] →
        ∃ xd yd rd, renderScene2Path data yearStr metric = .chart xd yd rd) := by
  refine ⟨?_, ?_, ?_, ?_⟩
  · intro h
    unfold renderScene1Path
    rw [h]
  · intro h
    cases hv : scene1Valid data yearStr regionStr with
    | nil => exact absurd hv h
    | cons v vs =>
        refine ⟨(scene1Domains v vs).1, (scene1Domains v vs).2.1,
          (scene1Domains v vs).2.2, ?_⟩
        unfold renderScene1Path
        rw [hv]
  · intro h
    unfold renderScene2Path
    rw [h]
  · intro h
    cases hv : scene2Data data yearStr metric with
    | nil => exact absurd hv h
    | cons v vs =>
        refine ⟨(scene2Domains metric v vs).1, (scene2Domains metric v vs).2.1,
          (scene2Domains metric v vs).2.2, ?_⟩
        unfold renderScene2Path
        rw [hv]

/-- A record with integer-valued indicators for concrete evaluation. -/
def obsPlain : Observation :=
  ⟨"W", some "WWW", 2021, some "Sub-Saharan Africa", some "Low income",
   some 1000, some 2, some 70, some 40, some 50, some 1000000, some 60⟩

/-- C8 witness: the guard theorem at concrete inputs — the empty dataset
takes the placeholder path in both scenes, and a one-record dataset takes
the chart path in both scenes. -/
theorem renderScene_empty_guard_witness :
    renderScene1Path [] "2021" "all" = .placeholder ∧
      (∃ xd yd rd, renderScene1Path [obsPlain] "2021" "all" = .chart xd yd rd) ∧
      renderScene2Path [] "2021" Observation.adult_literacy_rate = .placeholder ∧
      (∃ xd yd rd, renderScene2Path [obsPlain] "2021"
        Observation.adult_literacy_rate = .chart xd yd rd) := by
  have he := renderScene_empty_guard [] "2021" "all" Observation.adult_literacy_rate
  have hn := renderScene_empty_guard [obsPlain] "2021" "all"
    Observation.adult_literacy_rate
  refine ⟨he.1 (by rfl), hn.2.1 ?_, he.2.2.1 (by rfl), hn.2.2.2 ?_⟩
  · intro hwrong
    exact absurd ((by rfl : scene1Valid [obsPlain] "2021" "all" = [obsPlain]) ▸ hwrong)
      (by simp)
  · intro hwrong
    exact absurd ((by rfl : scene2Data [obsPlain] "2021"
      Observation.adult_literacy_rate = [obsPlain]) ▸ hwrong) (by simp)

/-- A d3 continuous power scale with exponent 0.5 (`d3.scaleSqrt`) on domain
`[d0, d1]` and range `[r0, r1]`: the interpolator applied to the normalized
square root of the input (`rScale` sets no clamping). -/
noncomputable def d3ScaleSqrt (d0 d1 r0 r1 v : ℝ) : ℝ :=
  r0 + (Real.sqrt v - Real.sqrt d0) / (Real.sqrt d1 - Real.sqrt d0) * (r1 - r0)

/-- Scene 1's radius scale (lines 319-321):
`d3.scaleSqrt().domain(d3.extent(pop)).range([3, 25])` for a population
extent `[d0, d1]`. -/
noncomputable def rScale (d0 d1 v : ℝ) : ℝ :=
  d3ScaleSqrt d0 d1 3 25 v

/-- C4 counterexample: two records with populations in ratio 4:1 (4,000,000
and 1,000,000, which are also the domain extent) receive radii 25 and 3 —
an area ratio of 625:9, not 4:1 — because the sqrt scale maps onto the
offset range `[3, 25]`, making the radius affine in `√population` rather
than proportional to it. -/
theorem rScale_area_ratio_cex :
    rScale 1000000 4000000 1000000 = 3 ∧
      rScale 1000000 4000000 4000000 = 25 ∧
      (rScale 1000000 4000000 4000000) ^ 2 ≠
        4 * (rScale 1000000 4000000 1000000) ^ 2 := by
  have h1 : Real.sqrt 1000000 = 1000 := by
    rw [show (1000000 : ℝ) = 1000 ^ 2 by norm_num,
      Real.sqrt_sq (by norm_num : (0:ℝ) ≤ 1000)]
  have h2 : Real.sqrt 4000000 = 2000 := by
    rw [show (4000000 : ℝ) = 2000 ^ 2 by norm_num,
      Real.sqrt_sq (by norm_num : (0:ℝ) ≤ 2000)]
  refine ⟨?_, ?_, ?_⟩ <;> simp [rScale, d3ScaleSqrt, h1, h2] <;> norm_num

/-- C4 (amended): the radius scale maps the population extent onto `[3, 25]`
through the square root — the domain endpoints receive radii exactly 3 and
25, and the radius is monotone in population — but the offset range start
makes the radius affine in `√population`, so circle area is not in general
proportional to population (see the counterexample). -/
theorem rScale_endpoints_monotone (d0 d1 : ℝ) (h0 : 0 ≤ d0) (h01 : d0 < d1) :
    rScale d0 d1 d0 = 3 ∧ rScale d0 d1 d1 = 25 ∧
      ∀ u v : ℝ, u ≤ v → rScale d0 d1 u ≤ rScale d0 d1 v := by
  have hs : Real.sqrt d0 < Real.sqrt d1 := Real.sqrt_lt_sqrt h0 h01
  have hD : 0 < Real.sqrt d1 - Real.sqrt d0 := sub_pos.mpr hs
  refine ⟨?_, ?_, ?_⟩
  · simp [rScale, d3ScaleSqrt]
  · rw [rScale, d3ScaleSqrt, div_self (ne_of_gt hD)]
    norm_num
  · intro u v huv
    have hm : Real.sqrt u ≤ Real.sqrt v := Real.sqrt_le_sqrt huv
    rw [rScale, d3ScaleSqrt, rScale, d3ScaleSqrt]
    have hdiv : (Real.sqrt u - Real.sqrt d0) / (Real.sqrt d1 - Real.sqrt d0) ≤
        (Real.sqrt v - Real.sqrt d0) / (Real.sqrt d1 - Real.sqrt d0) :=
      (div_le_div_iff_of_pos_right hD).mpr (by linarith)
    nlinarith [hdiv]

/-- C4 witness: the amended radius-scale facts at the concrete domain
`[1, 4]`. -/
theorem rScale_endpoints_monotone_witness :
    rScale 1 4 1 = 3 ∧ rScale 1 4 4 = 25 ∧ rScale 1 4 2 ≤ rScale 1 4 3 := by
  have h := rScale_endpoints_monotone 1 4 (by norm_num) (by norm_num)
  exact ⟨h.1, h.2.1, h.2.2 2 3 (by norm_num)⟩






